import Mathlib

/-!
Verification of the directive-dispatch and focus-arbitration core of the
ExternalMediaPlayer capability agent (ExternalMediaPlayer.cpp), as a shallow
embedding.  The EXTERNALMEDIAPLAYER_1_1 build configuration is modelled, which
is the configuration the accompanying design document describes (adapter
handlers, the focus state machine, the halt-initiator bookkeeping).

Structured JSON payloads are modelled as a record of optional typed fields
(`jsonUtils::retrieveValue` returning false corresponds to the field being
`none`); a directive whose raw payload does not parse at all is modelled with
`payload = none`.  Side effects on collaborators (exception sender, result
sink, adapters, adapter handlers, focus manager) are collected in explicit
outcome traces.
-/

namespace AvsEmp

/-- RequestType from ExternalMediaAdapterInterface, the request kinds stored in
the dispatch table and passed to playControl. -/
inductive RequestType where
  | LOGIN | LOGOUT | PLAY | PAUSE | STOP | RESUME
  | NEXT | PREVIOUS | START_OVER | FAST_FORWARD | REWIND
  | ENABLE_REPEAT_ONE | ENABLE_REPEAT | DISABLE_REPEAT
  | ENABLE_SHUFFLE | DISABLE_SHUFFLE
  | FAVORITE | DESELECT_FAVORITE | UNFAVORITE | DESELECT_UNFAVORITE
  | PAUSE_RESUME_TOGGLE | SEEK | ADJUST_SEEK | NONE
  deriving DecidableEq, Repr

/-- avsCommon::avs::PlayerActivity. -/
inductive PlayerActivity where
  | IDLE | PLAYING | STOPPED | PAUSED | BUFFER_UNDERRUN | FINISHED
  deriving DecidableEq, Repr

/-- avsCommon::avs::FocusState. -/
inductive FocusState where
  | FOREGROUND | BACKGROUND | NONE
  deriving DecidableEq, Repr

/-- ExternalMediaPlayer::HaltInitiator. -/
inductive HaltInitiator where
  | NONE | EXTERNAL_PAUSE | FOCUS_CHANGE_PAUSE | FOCUS_CHANGE_STOP
  deriving DecidableEq, Repr

/-- The member-function handlers that appear in m_directiveToHandlerMap. -/
inductive DirectiveHandler where
  | handleAuthorizeDiscoveredPlayers
  | handleLogin | handleLogout | handlePlay
  | handlePlayControl | handleSeek | handleAdjustSeek
  deriving DecidableEq, Repr

/-- The typed fields that the handlers extract from a parsed directive payload
via jsonUtils::retrieveValue; `none` means the field is absent. -/
structure Payload where
  playerId : Option String
  accessToken : Option String
  userName : Option String
  tokenRefreshIntervalInMilliseconds : Option Int
  forceLogin : Option Bool
  playbackContextToken : Option String
  offsetInMilliseconds : Option Int
  index : Option Int
  skillToken : Option String
  playbackSessionId : Option String
  navigation : Option String
  preload : Option Bool
  positionMilliseconds : Option Int
  deltaPositionMilliseconds : Option Int
  deriving DecidableEq, Repr

/-- An AVSDirective: namespace, name and its payload (`none` when the raw
payload fails to parse in parseDirectivePayload). -/
structure Directive where
  nameSpace : String
  name : String
  payload : Option Payload
  deriving DecidableEq, Repr

/-- The session-state portion of an AdapterState (fields used by the
aggregator: playerId for the emptiness filter, loggedIn/userName for the
observer notification). -/
structure SessionState where
  playerId : String
  loggedIn : Bool
  userName : String
  deriving DecidableEq, Repr

/-- The playback-state portion of an AdapterState. -/
structure PlaybackState where
  playerId : String
  state : String
  trackName : String
  deriving DecidableEq, Repr

/-- AdapterState as returned by getState()/getAdapterStates(). -/
structure AdapterState where
  sessionState : SessionState
  playbackState : PlaybackState
  deriving DecidableEq, Repr

/-- The mutable state of the ExternalMediaPlayer that the modelled operations
read and write.  m_adapters maps a playerId to `some adapterState` for a
non-null adapter (the stored state stands for the adapter handle) and to
`none` for a null entry; m_adapterHandlers is the registered handler set,
identified by numeric ids, kept in registration order. -/
structure EmpState where
  focus : FocusState
  focusAcquireInProgress : Bool
  haltInitiator : HaltInitiator
  currentActivity : PlayerActivity
  playerInFocus : String
  adapters : List (String × Option AdapterState)
  adapterHandlers : List Nat
  deriving DecidableEq, Repr

/-- The distinct directive-failure paths, keyed by the reason logged at the
ACSDK_ERROR call on each path. -/
inductive ErrorKind where
  | unableToParsePayload
  | noPlayerId
  | noAdapterForPlayerId
  | nullAdapter
  | unhandledDirective
  | nullAccessToken
  | nullRefreshInterval
  | nullForceLogin
  | nullPlaybackContextToken
  | nullSkillToken
  | nullPlaybackSessionId
  | nullNavigation
  | nullPreload
  | nullPosition
  | nullDeltaPositionMilliseconds
  | deltaPositionMillisecondsOutOfRange
  deriving DecidableEq, Repr

/-- The message string passed to sendExceptionEncounteredAndReportFailed on
each failure path (note the out-of-range path reuses the missing-field
message text in the source, while its log reason is distinct). -/
def errorMessage : ErrorKind → String
  | ErrorKind.unableToParsePayload => "Unable to parse payload"
  | ErrorKind.noPlayerId => "No PlayerId in directive."
  | ErrorKind.noAdapterForPlayerId => "Unrecogonized PlayerId."
  | ErrorKind.nullAdapter => "nullAdapter."
  | ErrorKind.unhandledDirective => "Unhandled directive"
  | ErrorKind.nullAccessToken => "missing accessToken in Login directive"
  | ErrorKind.nullRefreshInterval => "missing tokenRefreshIntervalInMilliseconds in Login directive"
  | ErrorKind.nullForceLogin => "missing forceLogin in Login directive"
  | ErrorKind.nullPlaybackContextToken => "missing playbackContextToken in Play directive"
  | ErrorKind.nullSkillToken => "missing skillToken in Play directive"
  | ErrorKind.nullPlaybackSessionId => "missing playbackSessionId in Play directive"
  | ErrorKind.nullNavigation => "missing navigation in Play directive"
  | ErrorKind.nullPreload => "missing preload in Play directive"
  | ErrorKind.nullPosition => "missing positionMilliseconds in SetSeekPosition directive"
  | ErrorKind.nullDeltaPositionMilliseconds => "missing deltaPositionMilliseconds in AdjustSeekPosition directive"
  | ErrorKind.deltaPositionMillisecondsOutOfRange => "missing deltaPositionMilliseconds in AdjustSeekPosition directive"

/-- A call made on a resolved registry adapter. -/
inductive AdapterCall where
  | handleLogin (accessToken userName : String) (forceLogin : Bool) (refreshInterval : Int)
  | handleLogout
  | handlePlay (playbackContextToken : String) (index offset : Int)
      (skillToken playbackSessionId navigation : String) (preload : Bool)
  | handlePlayControl (request : RequestType)
  | handleSeek (position : Int)
  | handleAdjustSeek (delta : Int)
  deriving DecidableEq, Repr

/-- A call broadcast to one registered adapter handler (the raw payload each
broadcast passes along is the directive's, so it is not repeated here). -/
inductive BroadcastCall where
  | login | logout | play | seek | adjustSeek
  | playControl (request : RequestType)
  | authorizeDiscoveredPlayers
  deriving DecidableEq, Repr

/-- The observable outcome of handling one directive: the failure paths taken
(each sends an exception and marks the directive failed), whether
setHandlingCompleted ran, the registry-adapter calls (tagged with the playerId
the adapter was resolved under), and the per-handler broadcast calls. -/
structure Outcome where
  failures : List ErrorKind
  completed : Bool
  adapterCalls : List (String × AdapterCall)
  broadcastCalls : List (Nat × BroadcastCall)
  deriving DecidableEq, Repr

/-- MAX_PAST_OFFSET: the most negative adjustSeek delta accepted (ms). -/
def MAX_PAST_OFFSET : Int := -86400000

/-- MAX_FUTURE_OFFSET: the largest adjustSeek delta accepted (ms). -/
def MAX_FUTURE_OFFSET : Int := 86400000

/-- ExternalMediaPlayer::preprocessDirective: parse the payload, require the
playerId field, then — in the 1_1 configuration — fall back to the handler
path when no registry adapters exist, and otherwise resolve and null-check the
adapter.  Returns the resolved (playerId, parsed payload) on success (the
playerId standing for the adapter handle) together with the failure trace. -/
def preprocessDirective (s : EmpState) (d : Directive) :
    Option (String × Payload) × List ErrorKind :=
  match d.payload with
  | none => (none, [ErrorKind.unableToParsePayload])
  | some p =>
    match p.playerId with
    | none => (none, [ErrorKind.noPlayerId])
    | some pid =>
      if s.adapters.isEmpty then
        (none, [])
      else
        match s.adapters.lookup pid with
        | none => (none, [ErrorKind.noAdapterForPlayerId])
        | some none => (none, [ErrorKind.nullAdapter])
        | some (some _) => (some (pid, p), [])

/-- One broadcastCalls trace entry per registered adapter handler, in
registration order (the for-loop over m_adapterHandlers). -/
def broadcast (s : EmpState) (c : BroadcastCall) : List (Nat × BroadcastCall) :=
  s.adapterHandlers.map (fun h => (h, c))

/-- ExternalMediaPlayer::setHaltInitiatorRequestHelper. -/
def setHaltInitiatorRequestHelper (s : EmpState) (request : RequestType) : EmpState :=
  match request with
  | RequestType.PAUSE => { s with haltInitiator := HaltInitiator.EXTERNAL_PAUSE }
  | RequestType.PAUSE_RESUME_TOGGLE =>
      if s.currentActivity = PlayerActivity.PLAYING ∨
          (s.currentActivity = PlayerActivity.PAUSED ∧
            s.haltInitiator = HaltInitiator.FOCUS_CHANGE_PAUSE) then
        { s with haltInitiator := HaltInitiator.EXTERNAL_PAUSE }
      else s
  | RequestType.PLAY => { s with haltInitiator := HaltInitiator.NONE }
  | RequestType.RESUME => { s with haltInitiator := HaltInitiator.NONE }
  | _ => s

/-- ExternalMediaPlayer::handleLogin. -/
def handleLogin (s : EmpState) (d : Directive) (_request : RequestType) :
    EmpState × Outcome :=
  match preprocessDirective s d with
  | (none, errs) =>
      (s, ⟨errs, true, [], broadcast s BroadcastCall.login⟩)
  | (some (pid, p), errs) =>
      match p.accessToken with
      | none => (s, ⟨errs ++ [ErrorKind.nullAccessToken], false, [], []⟩)
      | some accessToken =>
        let userName := p.userName.getD ""
        match p.tokenRefreshIntervalInMilliseconds with
        | none => (s, ⟨errs ++ [ErrorKind.nullRefreshInterval], false, [], []⟩)
        | some refreshInterval =>
          match p.forceLogin with
          | none => (s, ⟨errs ++ [ErrorKind.nullForceLogin], false, [], []⟩)
          | some forceLogin =>
            (s, ⟨errs, true,
                  [(pid, AdapterCall.handleLogin accessToken userName forceLogin refreshInterval)],
                  []⟩)

/-- ExternalMediaPlayer::handleLogout. -/
def handleLogout (s : EmpState) (d : Directive) (_request : RequestType) :
    EmpState × Outcome :=
  match preprocessDirective s d with
  | (none, errs) =>
      (s, ⟨errs, true, [], broadcast s BroadcastCall.logout⟩)
  | (some (pid, _p), errs) =>
      (s, ⟨errs, true, [(pid, AdapterCall.handleLogout)], []⟩)

/-- ExternalMediaPlayer::handlePlay (the fallback branch runs
setHaltInitiatorRequestHelper before broadcasting). -/
def handlePlay (s : EmpState) (d : Directive) (request : RequestType) :
    EmpState × Outcome :=
  match preprocessDirective s d with
  | (none, errs) =>
      (setHaltInitiatorRequestHelper s request,
       ⟨errs, true, [], broadcast s BroadcastCall.play⟩)
  | (some (pid, p), errs) =>
      match p.playbackContextToken with
      | none => (s, ⟨errs ++ [ErrorKind.nullPlaybackContextToken], false, [], []⟩)
      | some playbackContextToken =>
        let offset := p.offsetInMilliseconds.getD 0
        let index := p.index.getD 0
        match p.skillToken with
        | none => (s, ⟨errs ++ [ErrorKind.nullSkillToken], false, [], []⟩)
        | some skillToken =>
          match p.playbackSessionId with
          | none => (s, ⟨errs ++ [ErrorKind.nullPlaybackSessionId], false, [], []⟩)
          | some playbackSessionId =>
            match p.navigation with
            | none => (s, ⟨errs ++ [ErrorKind.nullNavigation], false, [], []⟩)
            | some navigation =>
              match p.preload with
              | none => (s, ⟨errs ++ [ErrorKind.nullPreload], false, [], []⟩)
              | some preload =>
                (s, ⟨errs, true,
                      [(pid, AdapterCall.handlePlay playbackContextToken index offset
                          skillToken playbackSessionId navigation preload)],
                      []⟩)

/-- ExternalMediaPlayer::handleSeek. -/
def handleSeek (s : EmpState) (d : Directive) (_request : RequestType) :
    EmpState × Outcome :=
  match preprocessDirective s d with
  | (none, errs) =>
      (s, ⟨errs, true, [], broadcast s BroadcastCall.seek⟩)
  | (some (pid, p), errs) =>
      match p.positionMilliseconds with
      | none => (s, ⟨errs ++ [ErrorKind.nullPosition], false, [], []⟩)
      | some position =>
        (s, ⟨errs, true, [(pid, AdapterCall.handleSeek position)], []⟩)

/-- ExternalMediaPlayer::handleAdjustSeek, with the ±24h bound on the delta. -/
def handleAdjustSeek (s : EmpState) (d : Directive) (_request : RequestType) :
    EmpState × Outcome :=
  match preprocessDirective s d with
  | (none, errs) =>
      (s, ⟨errs, true, [], broadcast s BroadcastCall.adjustSeek⟩)
  | (some (pid, p), errs) =>
      match p.deltaPositionMilliseconds with
      | none => (s, ⟨errs ++ [ErrorKind.nullDeltaPositionMilliseconds], false, [], []⟩)
      | some deltaPosition =>
        if deltaPosition < MAX_PAST_OFFSET ∨ deltaPosition > MAX_FUTURE_OFFSET then
          (s, ⟨errs ++ [ErrorKind.deltaPositionMillisecondsOutOfRange], false, [], []⟩)
        else
          (s, ⟨errs, true, [(pid, AdapterCall.handleAdjustSeek deltaPosition)], []⟩)

/-- ExternalMediaPlayer::handlePlayControl (the fallback branch runs
setHaltInitiatorRequestHelper before broadcasting). -/
def handlePlayControl (s : EmpState) (d : Directive) (request : RequestType) :
    EmpState × Outcome :=
  match preprocessDirective s d with
  | (none, errs) =>
      (setHaltInitiatorRequestHelper s request,
       ⟨errs, true, [], broadcast s (BroadcastCall.playControl request)⟩)
  | (some (pid, _p), errs) =>
      (s, ⟨errs, true, [(pid, AdapterCall.handlePlayControl request)], []⟩)

/-- ExternalMediaPlayer::handleAuthorizeDiscoveredPlayers (1_1 only): parse
the payload, then broadcast to every adapter handler. -/
def handleAuthorizeDiscoveredPlayers (s : EmpState) (d : Directive)
    (_request : RequestType) : EmpState × Outcome :=
  match d.payload with
  | none => (s, ⟨[ErrorKind.unableToParsePayload], false, [], []⟩)
  | some _ =>
      (s, ⟨[], true, [], broadcast s BroadcastCall.authorizeDiscoveredPlayers⟩)

/-- Dispatch through the member-function pointer stored in the table. -/
def runHandler : DirectiveHandler → EmpState → Directive → RequestType → EmpState × Outcome
  | DirectiveHandler.handleAuthorizeDiscoveredPlayers => handleAuthorizeDiscoveredPlayers
  | DirectiveHandler.handleLogin => handleLogin
  | DirectiveHandler.handleLogout => handleLogout
  | DirectiveHandler.handlePlay => handlePlay
  | DirectiveHandler.handlePlayControl => handlePlayControl
  | DirectiveHandler.handleSeek => handleSeek
  | DirectiveHandler.handleAdjustSeek => handleAdjustSeek

/-- ExternalMediaPlayer::m_directiveToHandlerMap: the static table from
(namespace, name) to (RequestType, handler). -/
def directiveToHandlerTable :
    List ((String × String) × (RequestType × DirectiveHandler)) :=
  [(("ExternalMediaPlayer", "AuthorizeDiscoveredPlayers"),
      (RequestType.NONE, DirectiveHandler.handleAuthorizeDiscoveredPlayers)),
   (("ExternalMediaPlayer", "Login"), (RequestType.LOGIN, DirectiveHandler.handleLogin)),
   (("ExternalMediaPlayer", "Logout"), (RequestType.LOGOUT, DirectiveHandler.handleLogout)),
   (("ExternalMediaPlayer", "Play"), (RequestType.PLAY, DirectiveHandler.handlePlay)),
   (("Alexa.PlaybackController", "Pause"), (RequestType.PAUSE, DirectiveHandler.handlePlayControl)),
   (("Alexa.PlaybackController", "Stop"), (RequestType.STOP, DirectiveHandler.handlePlayControl)),
   (("Alexa.PlaybackController", "Play"), (RequestType.RESUME, DirectiveHandler.handlePlayControl)),
   (("Alexa.PlaybackController", "Next"), (RequestType.NEXT, DirectiveHandler.handlePlayControl)),
   (("Alexa.PlaybackController", "Previous"), (RequestType.PREVIOUS, DirectiveHandler.handlePlayControl)),
   (("Alexa.PlaybackController", "StartOver"), (RequestType.START_OVER, DirectiveHandler.handlePlayControl)),
   (("Alexa.PlaybackController", "FastForward"), (RequestType.FAST_FORWARD, DirectiveHandler.handlePlayControl)),
   (("Alexa.PlaybackController", "Rewind"), (RequestType.REWIND, DirectiveHandler.handlePlayControl)),
   (("Alexa.PlaylistController", "EnableRepeatOne"), (RequestType.ENABLE_REPEAT_ONE, DirectiveHandler.handlePlayControl)),
   (("Alexa.PlaylistController", "EnableRepeat"), (RequestType.ENABLE_REPEAT, DirectiveHandler.handlePlayControl)),
   (("Alexa.PlaylistController", "DisableRepeat"), (RequestType.DISABLE_REPEAT, DirectiveHandler.handlePlayControl)),
   (("Alexa.PlaylistController", "EnableShuffle"), (RequestType.ENABLE_SHUFFLE, DirectiveHandler.handlePlayControl)),
   (("Alexa.PlaylistController", "DisableShuffle"), (RequestType.DISABLE_SHUFFLE, DirectiveHandler.handlePlayControl)),
   (("Alexa.FavoritesController", "Favorite"), (RequestType.FAVORITE, DirectiveHandler.handlePlayControl)),
   (("Alexa.FavoritesController", "Unfavorite"), (RequestType.UNFAVORITE, DirectiveHandler.handlePlayControl)),
   (("Alexa.SeekController", "SetSeekPosition"), (RequestType.SEEK, DirectiveHandler.handleSeek)),
   (("Alexa.SeekController", "AdjustSeekPosition"), (RequestType.ADJUST_SEEK, DirectiveHandler.handleAdjustSeek))]

/-- Table lookup by (namespace, name). -/
def directiveToHandlerMap (key : String × String) :
    Option (RequestType × DirectiveHandler) :=
  directiveToHandlerTable.lookup key

/-- ExternalMediaPlayer::handleDirective: fail unknown (namespace, name) keys
with the unhandled-directive error, dispatch known keys. -/
def handleDirective (s : EmpState) (d : Directive) : EmpState × Outcome :=
  match directiveToHandlerMap (d.nameSpace, d.name) with
  | none => (s, ⟨[ErrorKind.unhandledDirective], false, [], []⟩)
  | some (request, h) => runHandler h s d request

/-- ExternalMediaPlayer::setCurrentActivity (the condition-variable broadcast
carries no information in the pure model). -/
def setCurrentActivity (s : EmpState) (a : PlayerActivity) : EmpState :=
  { s with currentActivity := a }

/-- ExternalMediaPlayer::executeOnFocusChanged: the asynchronous focus-grant
transition table.  Returns the new state and the playControlForPlayer calls
issued, each as (handler id, playerId, request). -/
def executeOnFocusChanged (s : EmpState) (newFocus : FocusState) :
    EmpState × List (Nat × String × RequestType) :=
  if s.focus = newFocus then
    ({ s with focusAcquireInProgress := false }, [])
  else
    let s1 : EmpState := { s with focus := newFocus, focusAcquireInProgress := false }
    if s1.playerInFocus ≠ "" ∧ s1.adapters.lookup s1.playerInFocus = none then
      match newFocus with
      | FocusState.FOREGROUND =>
        if s1.haltInitiator = HaltInitiator.EXTERNAL_PAUSE then (s1, [])
        else
          match s1.currentActivity with
          | PlayerActivity.IDLE => (s1, [])
          | PlayerActivity.STOPPED => (s1, [])
          | PlayerActivity.FINISHED => (s1, [])
          | PlayerActivity.PAUSED =>
            let s2 := setCurrentActivity s1 PlayerActivity.PLAYING
            if s2.haltInitiator ≠ HaltInitiator.NONE then
              (s2, s2.adapterHandlers.map (fun h => (h, s2.playerInFocus, RequestType.RESUME)))
            else (s2, [])
          | PlayerActivity.PLAYING => (s1, [])
          | PlayerActivity.BUFFER_UNDERRUN => (s1, [])
      | FocusState.BACKGROUND =>
        let s2 := if s1.haltInitiator ≠ HaltInitiator.EXTERNAL_PAUSE then
            { s1 with haltInitiator := HaltInitiator.FOCUS_CHANGE_PAUSE }
          else s1
        let s3 := setCurrentActivity s2 PlayerActivity.PAUSED
        (s3, s3.adapterHandlers.map (fun h => (h, s3.playerInFocus, RequestType.PAUSE)))
      | FocusState.NONE =>
        match s1.currentActivity with
        | PlayerActivity.IDLE => (s1, [])
        | PlayerActivity.STOPPED => (s1, [])
        | PlayerActivity.FINISHED => (s1, [])
        | PlayerActivity.PLAYING =>
          let s2 := setCurrentActivity
              { s1 with haltInitiator := HaltInitiator.FOCUS_CHANGE_STOP } PlayerActivity.STOPPED
          (s2, s2.adapterHandlers.map (fun h => (h, s2.playerInFocus, RequestType.STOP)))
        | PlayerActivity.PAUSED =>
          let s2 := setCurrentActivity
              { s1 with haltInitiator := HaltInitiator.FOCUS_CHANGE_STOP } PlayerActivity.STOPPED
          (s2, s2.adapterHandlers.map (fun h => (h, s2.playerInFocus, RequestType.STOP)))
        | PlayerActivity.BUFFER_UNDERRUN =>
          let s2 := setCurrentActivity
              { s1 with haltInitiator := HaltInitiator.FOCUS_CHANGE_STOP } PlayerActivity.STOPPED
          (s2, s2.adapterHandlers.map (fun h => (h, s2.playerInFocus, RequestType.STOP)))
    else (s1, [])

/-- The calls setPlayerInFocus makes on its collaborators. -/
inductive FocusManagerCall where
  | routerSetHandler
  | acquireChannel
  | releaseChannel
  deriving DecidableEq, Repr

/-- ExternalMediaPlayer::setPlayerInFocus (1_1 overload with the focusAcquire
flag): on acquire intent, record the player and route the playback buttons to
this agent, then — only when focus is NONE and no acquisition is already in
progress — reset activity/halt and acquire the channel; on release intent,
release the channel only for the current player-in-focus while focus is held. -/
def setPlayerInFocus (s : EmpState) (playerInFocus : String) (focusAcquire : Bool) :
    EmpState × List FocusManagerCall :=
  if focusAcquire then
    let s1 : EmpState := { s with playerInFocus := playerInFocus }
    if s1.focus = FocusState.NONE ∧ s1.focusAcquireInProgress ≠ true then
      ({ s1 with currentActivity := PlayerActivity.IDLE,
                 haltInitiator := HaltInitiator.NONE,
                 focusAcquireInProgress := true },
       [FocusManagerCall.routerSetHandler, FocusManagerCall.acquireChannel])
    else
      (s1, [FocusManagerCall.routerSetHandler])
  else
    if playerInFocus = s.playerInFocus ∧ s.focus ≠ FocusState.NONE then
      (s, [FocusManagerCall.releaseChannel])
    else
      (s, [])

/-- The log-worthy conditions in addAdapterHandler / removeAdapterHandler. -/
inductive HandlerLogNote where
  | nullHandlerError
  | duplicateHandlerError
  | nonexistentHandlerWarning
  deriving DecidableEq, Repr

/-- ExternalMediaPlayer::addAdapterHandler: reject a null handler; the set
insert fails (logged, no state change) on a duplicate. -/
def addAdapterHandler (s : EmpState) (adapterHandler : Option Nat) :
    EmpState × Option HandlerLogNote :=
  match adapterHandler with
  | none => (s, some HandlerLogNote.nullHandlerError)
  | some h =>
    if h ∈ s.adapterHandlers then
      (s, some HandlerLogNote.duplicateHandlerError)
    else
      ({ s with adapterHandlers := s.adapterHandlers ++ [h] }, none)

/-- ExternalMediaPlayer::removeAdapterHandler: reject a null handler; erasing
a non-member is a warning and leaves the set unchanged. -/
def removeAdapterHandler (s : EmpState) (adapterHandler : Option Nat) :
    EmpState × Option HandlerLogNote :=
  match adapterHandler with
  | none => (s, some HandlerLogNote.nullHandlerError)
  | some h =>
    if h ∈ s.adapterHandlers then
      ({ s with adapterHandlers := s.adapterHandlers.erase h }, none)
    else
      (s, some HandlerLogNote.nonexistentHandlerWarning)

/-- The "players" array of the session-state snapshot built by
ExternalMediaPlayer::provideSessionState: one block per non-null registry
adapter, then one block per broadcast-handler adapter state whose session
playerId is non-empty (empty ones are skipped). -/
def provideSessionStatePlayers (s : EmpState) (adapterStates : List AdapterState) :
    List SessionState :=
  s.adapters.filterMap (fun a => a.2.map (fun ast => ast.sessionState))
    ++ adapterStates.filterMap (fun ast =>
        if ast.sessionState.playerId = "" then none else some ast.sessionState)

/-- The "players" array of the playback-state snapshot built by
ExternalMediaPlayer::providePlaybackState: one block per non-null registry
adapter, then one block per broadcast-handler adapter state — the 1_1 loop
appends every broadcast state, with no emptiness filter. -/
def providePlaybackStatePlayers (s : EmpState) (adapterStates : List AdapterState) :
    List PlaybackState :=
  s.adapters.filterMap (fun a => a.2.map (fun ast => ast.playbackState))
    ++ adapterStates.map (fun ast => ast.playbackState)

/-! ### Concrete sample data used by the evaluation witnesses -/

/-- A freshly constructed agent: no focus, nothing in progress, no halt, IDLE,
no player in focus, no registry adapters, no adapter handlers. -/
def emptyEmp : EmpState :=
  ⟨FocusState.NONE, false, HaltInitiator.NONE, PlayerActivity.IDLE, "", [], []⟩

/-- A payload with every field absent. -/
def emptyPayload : Payload :=
  ⟨none, none, none, none, none, none, none, none, none, none, none, none, none, none⟩

/-- A sample adapter state for a registry adapter. -/
def sampleAdapterState : AdapterState :=
  ⟨⟨"spotify", true, "user"⟩, ⟨"spotify", "PLAYING", "track"⟩⟩

/-! ### Helper lemmas -/

/-- preprocessDirective on a parsed payload with no playerId fails with the
missing-playerId error before consulting the registry. -/
theorem preprocess_noPlayerId (s : EmpState) (d : Directive) (p : Payload)
    (hp : d.payload = some p) (hpid : p.playerId = none) :
    preprocessDirective s d = (none, [ErrorKind.noPlayerId]) := by
  simp [preprocessDirective, hp, hpid]

/-- A successful association-list lookup shows the list is not empty. -/
theorem lookup_isEmpty_false {α β : Type} [BEq α] {l : List (α × β)} {k : α} {v : β}
    (h : l.lookup k = some v) : l.isEmpty = false := by
  cases l with
  | nil => simp [List.lookup] at h
  | cons a l => simp [List.isEmpty]

/-- preprocessDirective resolves the adapter when the payload parses, carries
a playerId, and the registry maps that id to a non-null adapter. -/
theorem preprocess_resolved (s : EmpState) (d : Directive) (p : Payload)
    (pid : String) (ast : AdapterState)
    (hp : d.payload = some p) (hpid : p.playerId = some pid)
    (hlk : s.adapters.lookup pid = some (some ast)) :
    preprocessDirective s d = (some (pid, p), []) := by
  simp [preprocessDirective, hp, hpid, hlk, lookup_isEmpty_false hlk]

/-! ### Claims -/

/-- Claim C1: for every incoming directive whose parsed payload has no
playerId field, each of the six preprocessing handlers (Login, Logout, Play,
PlayControl, Seek, AdjustSeek) fails the directive with exactly the
missing-playerId error, makes no registry-adapter call, and produces an
outcome that is independent of the adapter registry — the playerId check
happens before adapter resolution, uniformly across the handlers. -/
theorem missingPlayerId_failsUniformly (s : EmpState) (d : Directive) (p : Payload)
    (hd : DirectiveHandler) (request : RequestType)
    (hp : d.payload = some p) (hpid : p.playerId = none)
    (hne : hd ≠ DirectiveHandler.handleAuthorizeDiscoveredPlayers) :
    (runHandler hd s d request).2.failures = [ErrorKind.noPlayerId] ∧
    (runHandler hd s d request).2.adapterCalls = [] ∧
    ∀ adapters2 : List (String × Option AdapterState),
      (runHandler hd { s with adapters := adapters2 } d request).2 =
        (runHandler hd s d request).2 := by
  cases hd
  case handleAuthorizeDiscoveredPlayers => exact absurd rfl hne
  all_goals
    refine ⟨?_, ?_, ?_⟩ <;>
      simp [runHandler, handleLogin, handleLogout, handlePlay, handlePlayControl,
            handleSeek, handleAdjustSeek, preprocessDirective, hp, hpid, broadcast]

/-- A directive whose payload parses but carries no playerId field. -/
def directiveNoPlayerId : Directive :=
  ⟨"ExternalMediaPlayer", "Login", some emptyPayload⟩

/-- Witness for claim C1 at a concrete input: a Login directive whose payload
has no playerId, against the fresh agent state. -/
theorem missingPlayerId_failsUniformly_witness :
    (runHandler DirectiveHandler.handleLogin emptyEmp directiveNoPlayerId
        RequestType.LOGIN).2.failures = [ErrorKind.noPlayerId] ∧
    (runHandler DirectiveHandler.handleLogin emptyEmp directiveNoPlayerId
        RequestType.LOGIN).2.adapterCalls = [] ∧
    (runHandler DirectiveHandler.handleLogin
        { emptyEmp with adapters := [("spotify", some sampleAdapterState)] }
        directiveNoPlayerId RequestType.LOGIN).2 =
      (runHandler DirectiveHandler.handleLogin emptyEmp directiveNoPlayerId
        RequestType.LOGIN).2 := by
  have h := missingPlayerId_failsUniformly emptyEmp directiveNoPlayerId emptyPayload
    DirectiveHandler.handleLogin RequestType.LOGIN rfl rfl (by decide)
  exact ⟨h.1, h.2.1, h.2.2 [("spotify", some sampleAdapterState)]⟩

/-- Claim C5: a directive whose (namespace, name) pair has no entry in the
static dispatch table is failed with the unhandled-directive error; no
handler runs, no adapter call and no broadcast call is made, and the state is
unchanged. -/
theorem unhandledDirective_fails (s : EmpState) (d : Directive)
    (h : directiveToHandlerMap (d.nameSpace, d.name) = none) :
    handleDirective s d =
      (s, ⟨[ErrorKind.unhandledDirective], false, [], []⟩) := by
  simp [handleDirective, h]

/-- Witness for claim C5 at a concrete input: ("ExternalMediaPlayer", "Pause")
is not in the table (Pause lives in the Alexa.PlaybackController namespace). -/
theorem unhandledDirective_fails_witness :
    directiveToHandlerMap ("ExternalMediaPlayer", "Pause") = none ∧
    handleDirective emptyEmp ⟨"ExternalMediaPlayer", "Pause", some emptyPayload⟩ =
      (emptyEmp, ⟨[ErrorKind.unhandledDirective], false, [], []⟩) := by
  have h : directiveToHandlerMap ("ExternalMediaPlayer", "Pause") = none := by decide
  exact ⟨h, unhandledDirective_fails emptyEmp ⟨"ExternalMediaPlayer", "Pause", some emptyPayload⟩ h⟩

/-- An agent state whose registry holds the single adapter "spotify". -/
def sWithSpotify : EmpState :=
  { emptyEmp with adapters := [("spotify", some sampleAdapterState)] }

/-- Claim C6: a Play directive that resolves to a registry adapter but whose
payload lacks playbackContextToken fails with exactly the missing-field error
for that token; the adapter's handlePlay is never called and the state is
unchanged. -/
theorem handlePlay_missingContextToken (s : EmpState) (d : Directive) (p : Payload)
    (pid : String) (ast : AdapterState) (request : RequestType)
    (hp : d.payload = some p) (hpid : p.playerId = some pid)
    (hlk : s.adapters.lookup pid = some (some ast))
    (htok : p.playbackContextToken = none) :
    handlePlay s d request =
      (s, ⟨[ErrorKind.nullPlaybackContextToken], false, [], []⟩) := by
  simp [handlePlay, preprocess_resolved s d p pid ast hp hpid hlk, htok]

/-- A Play payload addressed to the "spotify" adapter with no
playbackContextToken. -/
def playPayloadNoToken : Payload := { emptyPayload with playerId := some "spotify" }

/-- Witness for claim C6 at a concrete input. -/
theorem handlePlay_missingContextToken_witness :
    handlePlay sWithSpotify
        ⟨"ExternalMediaPlayer", "Play", some playPayloadNoToken⟩ RequestType.PLAY =
      (sWithSpotify, ⟨[ErrorKind.nullPlaybackContextToken], false, [], []⟩) :=
  handlePlay_missingContextToken sWithSpotify
    ⟨"ExternalMediaPlayer", "Play", some playPayloadNoToken⟩ playPayloadNoToken
    "spotify" sampleAdapterState RequestType.PLAY rfl rfl (by decide) rfl

/-- Claim C4: for an AdjustSeekPosition directive handled through a registry
adapter, a delta outside [-86400000, 86400000] fails the directive with the
out-of-range error and no adapter call, while a delta within the bounds
(in particular exactly 86400000) succeeds: the directive completes and the
adapter's handleAdjustSeek is invoked with that delta. -/
theorem handleAdjustSeek_deltaRange (s : EmpState) (d : Directive) (p : Payload)
    (pid : String) (ast : AdapterState) (request : RequestType) (delta : Int)
    (hp : d.payload = some p) (hpid : p.playerId = some pid)
    (hlk : s.adapters.lookup pid = some (some ast))
    (hdelta : p.deltaPositionMilliseconds = some delta) :
    ((delta < MAX_PAST_OFFSET ∨ delta > MAX_FUTURE_OFFSET) →
      handleAdjustSeek s d request =
        (s, ⟨[ErrorKind.deltaPositionMillisecondsOutOfRange], false, [], []⟩)) ∧
    ((MAX_PAST_OFFSET ≤ delta ∧ delta ≤ MAX_FUTURE_OFFSET) →
      handleAdjustSeek s d request =
        (s, ⟨[], true, [(pid, AdapterCall.handleAdjustSeek delta)], []⟩)) := by
  have hpre := preprocess_resolved s d p pid ast hp hpid hlk
  constructor
  · intro hout
    simp [handleAdjustSeek, hpre, hdelta, hout]
  · intro hin
    have hnot : ¬(delta < MAX_PAST_OFFSET ∨ delta > MAX_FUTURE_OFFSET) := by
      rw [not_or]
      exact ⟨not_lt.2 hin.1, not_lt.2 hin.2⟩
    simp [handleAdjustSeek, hpre, hdelta, hnot]

/-- An AdjustSeekPosition payload addressed to the "spotify" adapter carrying
the given delta. -/
def adjustSeekPayload (delta : Int) : Payload :=
  { emptyPayload with playerId := some "spotify",
                      deltaPositionMilliseconds := some delta }

/-- The AdjustSeekPosition directive carrying the given delta. -/
def adjustSeekDirective (delta : Int) : Directive :=
  ⟨"Alexa.SeekController", "AdjustSeekPosition", some (adjustSeekPayload delta)⟩

/-- Witness for claim C4 at the boundary inputs 86400001, -86400001 and
86400000. -/
theorem handleAdjustSeek_deltaRange_witness :
    handleAdjustSeek sWithSpotify (adjustSeekDirective 86400001) RequestType.ADJUST_SEEK =
      (sWithSpotify, ⟨[ErrorKind.deltaPositionMillisecondsOutOfRange], false, [], []⟩) ∧
    handleAdjustSeek sWithSpotify (adjustSeekDirective (-86400001)) RequestType.ADJUST_SEEK =
      (sWithSpotify, ⟨[ErrorKind.deltaPositionMillisecondsOutOfRange], false, [], []⟩) ∧
    handleAdjustSeek sWithSpotify (adjustSeekDirective 86400000) RequestType.ADJUST_SEEK =
      (sWithSpotify, ⟨[], true, [("spotify", AdapterCall.handleAdjustSeek 86400000)], []⟩) := by
  refine ⟨?_, ?_, ?_⟩
  · exact (handleAdjustSeek_deltaRange sWithSpotify (adjustSeekDirective 86400001)
      (adjustSeekPayload 86400001) "spotify" sampleAdapterState RequestType.ADJUST_SEEK
      86400001 rfl rfl (by decide) rfl).1 (by decide)
  · exact (handleAdjustSeek_deltaRange sWithSpotify (adjustSeekDirective (-86400001))
      (adjustSeekPayload (-86400001)) "spotify" sampleAdapterState RequestType.ADJUST_SEEK
      (-86400001) rfl rfl (by decide) rfl).1 (by decide)
  · exact (handleAdjustSeek_deltaRange sWithSpotify (adjustSeekDirective 86400000)
      (adjustSeekPayload 86400000) "spotify" sampleAdapterState RequestType.ADJUST_SEEK
      86400000 rfl rfl (by decide) rfl).2 (by decide)

/-- Claim C2: a BACKGROUND focus grant (an actual focus change) received while
Playback Activity is PLAYING, with a non-empty player-in-focus that does not
resolve in the Adapter Registry, sets activity to PAUSED, sets Halt Initiator
to FOCUS_CHANGE_PAUSE unless it was already EXTERNAL_PAUSE (which is
preserved), and issues the PAUSE control for the player in focus exactly once
to each registered adapter handler — in particular exactly one PAUSE control
when a single handler is registered. -/
theorem executeOnFocusChanged_background_playing (s : EmpState)
    (hfoc : s.focus ≠ FocusState.BACKGROUND)
    (hpf : s.playerInFocus ≠ "")
    (hlk : s.adapters.lookup s.playerInFocus = none)
    (_hact : s.currentActivity = PlayerActivity.PLAYING) :
    (executeOnFocusChanged s FocusState.BACKGROUND).1.currentActivity = PlayerActivity.PAUSED ∧
    (executeOnFocusChanged s FocusState.BACKGROUND).1.haltInitiator =
      (if s.haltInitiator = HaltInitiator.EXTERNAL_PAUSE then HaltInitiator.EXTERNAL_PAUSE
        else HaltInitiator.FOCUS_CHANGE_PAUSE) ∧
    (executeOnFocusChanged s FocusState.BACKGROUND).2 =
      s.adapterHandlers.map (fun h => (h, s.playerInFocus, RequestType.PAUSE)) ∧
    ∀ h0 : Nat, s.adapterHandlers = [h0] →
      (executeOnFocusChanged s FocusState.BACKGROUND).2 =
        [(h0, s.playerInFocus, RequestType.PAUSE)] := by
  have hctrl : (executeOnFocusChanged s FocusState.BACKGROUND).2 =
      s.adapterHandlers.map (fun h => (h, s.playerInFocus, RequestType.PAUSE)) := by
    by_cases hh : s.haltInitiator = HaltInitiator.EXTERNAL_PAUSE <;>
      simp [executeOnFocusChanged, setCurrentActivity, hfoc, hpf, hlk, hh]
  refine ⟨?_, ?_, hctrl, ?_⟩
  · by_cases hh : s.haltInitiator = HaltInitiator.EXTERNAL_PAUSE <;>
      simp [executeOnFocusChanged, setCurrentActivity, hfoc, hpf, hlk, hh]
  · by_cases hh : s.haltInitiator = HaltInitiator.EXTERNAL_PAUSE <;>
      simp [executeOnFocusChanged, setCurrentActivity, hfoc, hpf, hlk, hh]
  · intro h0 hh0
    rw [hctrl, hh0]
    rfl

/-- A state in which the focus machine is engaged: BACKGROUND focus, playing,
player-in-focus "spotify" not in the (empty) registry, one adapter handler. -/
def sPlayingBackground : EmpState :=
  ⟨FocusState.BACKGROUND, false, HaltInitiator.NONE, PlayerActivity.PLAYING,
    "spotify", [], [7]⟩

/-- Witness for claim C2: the machine in FOREGROUND focus and PLAYING, granted
BACKGROUND, pauses and issues exactly one PAUSE control. -/
theorem executeOnFocusChanged_background_playing_witness :
    (executeOnFocusChanged { sPlayingBackground with focus := FocusState.FOREGROUND }
        FocusState.BACKGROUND).1.currentActivity = PlayerActivity.PAUSED ∧
    (executeOnFocusChanged { sPlayingBackground with focus := FocusState.FOREGROUND }
        FocusState.BACKGROUND).1.haltInitiator = HaltInitiator.FOCUS_CHANGE_PAUSE ∧
    (executeOnFocusChanged { sPlayingBackground with focus := FocusState.FOREGROUND }
        FocusState.BACKGROUND).2 = [(7, "spotify", RequestType.PAUSE)] := by
  have h := executeOnFocusChanged_background_playing
    { sPlayingBackground with focus := FocusState.FOREGROUND }
    (by decide) (by decide) (by decide) (by decide)
  exact ⟨h.1, h.2.1, h.2.2.2 7 rfl⟩

/-- Claim C3: a FOREGROUND focus grant (an actual focus change) received while
Playback Activity is PAUSED, with a non-empty player-in-focus that does not
resolve in the Adapter Registry: when Halt Initiator is FOCUS_CHANGE_PAUSE the
activity becomes PLAYING and the RESUME control is issued exactly once to each
registered adapter handler (exactly one RESUME with a single handler); when
Halt Initiator is EXTERNAL_PAUSE no activity or halt-initiator transition
happens and no control is issued. -/
theorem executeOnFocusChanged_foreground_paused (s : EmpState)
    (hfoc : s.focus ≠ FocusState.FOREGROUND)
    (hpf : s.playerInFocus ≠ "")
    (hlk : s.adapters.lookup s.playerInFocus = none)
    (hact : s.currentActivity = PlayerActivity.PAUSED) :
    (s.haltInitiator = HaltInitiator.FOCUS_CHANGE_PAUSE →
      (executeOnFocusChanged s FocusState.FOREGROUND).1.currentActivity = PlayerActivity.PLAYING ∧
      (executeOnFocusChanged s FocusState.FOREGROUND).2 =
        s.adapterHandlers.map (fun h => (h, s.playerInFocus, RequestType.RESUME)) ∧
      ∀ h0 : Nat, s.adapterHandlers = [h0] →
        (executeOnFocusChanged s FocusState.FOREGROUND).2 =
          [(h0, s.playerInFocus, RequestType.RESUME)]) ∧
    (s.haltInitiator = HaltInitiator.EXTERNAL_PAUSE →
      (executeOnFocusChanged s FocusState.FOREGROUND).1.currentActivity = s.currentActivity ∧
      (executeOnFocusChanged s FocusState.FOREGROUND).1.haltInitiator = s.haltInitiator ∧
      (executeOnFocusChanged s FocusState.FOREGROUND).2 = []) := by
  constructor
  · intro hh
    have hctrl : (executeOnFocusChanged s FocusState.FOREGROUND).2 =
        s.adapterHandlers.map (fun h => (h, s.playerInFocus, RequestType.RESUME)) := by
      simp [executeOnFocusChanged, setCurrentActivity, hfoc, hpf, hlk, hact, hh]
    refine ⟨?_, hctrl, ?_⟩
    · simp [executeOnFocusChanged, setCurrentActivity, hfoc, hpf, hlk, hact, hh]
    · intro h0 hh0
      rw [hctrl, hh0]
      rfl
  · intro hh
    refine ⟨?_, ?_, ?_⟩ <;>
      simp [executeOnFocusChanged, setCurrentActivity, hfoc, hpf, hlk, hact, hh]

/-- A paused state after a focus-change pause: BACKGROUND focus, PAUSED,
player-in-focus "spotify" not in the registry, one adapter handler. -/
def sPausedFocusChange : EmpState :=
  ⟨FocusState.BACKGROUND, false, HaltInitiator.FOCUS_CHANGE_PAUSE, PlayerActivity.PAUSED,
    "spotify", [], [7]⟩

/-- Witness for claim C3: granting FOREGROUND from the focus-change-paused
state resumes with exactly one RESUME control; granting it from the
externally-paused state does nothing. -/
theorem executeOnFocusChanged_foreground_paused_witness :
    (executeOnFocusChanged sPausedFocusChange FocusState.FOREGROUND).1.currentActivity =
      PlayerActivity.PLAYING ∧
    (executeOnFocusChanged sPausedFocusChange FocusState.FOREGROUND).2 =
      [(7, "spotify", RequestType.RESUME)] ∧
    (executeOnFocusChanged { sPausedFocusChange with
        haltInitiator := HaltInitiator.EXTERNAL_PAUSE } FocusState.FOREGROUND).1.currentActivity =
      PlayerActivity.PAUSED ∧
    (executeOnFocusChanged { sPausedFocusChange with
        haltInitiator := HaltInitiator.EXTERNAL_PAUSE } FocusState.FOREGROUND).2 = [] := by
  have h1 := (executeOnFocusChanged_foreground_paused sPausedFocusChange
    (by decide) (by decide) (by decide) (by decide)).1 rfl
  have h2 := (executeOnFocusChanged_foreground_paused
    { sPausedFocusChange with haltInitiator := HaltInitiator.EXTERNAL_PAUSE }
    (by decide) (by decide) (by decide) (by decide)).2 rfl
  exact ⟨h1.1, h1.2.2 7 rfl, h2.1, h2.2.2⟩

/-- Claim C10: the focus-arbitration transition table runs only when the
player-in-focus is non-empty and absent from the Adapter Registry: a grant
equal to the current focus only clears the acquire-in-progress flag (and
issues nothing), and a changed grant with an empty player-in-focus, or with a
player-in-focus present in the registry, leaves activity and halt initiator
untouched and issues no control. -/
theorem executeOnFocusChanged_guards (s : EmpState) (f : FocusState) :
    (s.focus = f →
      executeOnFocusChanged s f = ({ s with focusAcquireInProgress := false }, [])) ∧
    (s.focus ≠ f → s.playerInFocus = "" →
      (executeOnFocusChanged s f).1.currentActivity = s.currentActivity ∧
      (executeOnFocusChanged s f).1.haltInitiator = s.haltInitiator ∧
      (executeOnFocusChanged s f).2 = []) ∧
    (∀ a : Option AdapterState, s.focus ≠ f →
      s.adapters.lookup s.playerInFocus = some a →
      (executeOnFocusChanged s f).1.currentActivity = s.currentActivity ∧
      (executeOnFocusChanged s f).1.haltInitiator = s.haltInitiator ∧
      (executeOnFocusChanged s f).2 = []) := by
  refine ⟨?_, ?_, ?_⟩
  · intro heq
    simp [executeOnFocusChanged, heq]
  · intro hne hpf
    simp [executeOnFocusChanged, hne, hpf]
  · intro a hne hlk
    simp [executeOnFocusChanged, hne, hlk]

/-- Witness for claim C10: a same-focus grant only clears the in-progress
flag; a focus change with the player-in-focus found in the registry changes
no activity and issues nothing. -/
theorem executeOnFocusChanged_guards_witness :
    executeOnFocusChanged { sWithSpotify with focusAcquireInProgress := true }
        FocusState.NONE = (sWithSpotify, []) ∧
    (executeOnFocusChanged { sWithSpotify with playerInFocus := "spotify" }
        FocusState.FOREGROUND).1.currentActivity = PlayerActivity.IDLE ∧
    (executeOnFocusChanged { sWithSpotify with playerInFocus := "spotify" }
        FocusState.FOREGROUND).2 = [] := by
  have h1 := (executeOnFocusChanged_guards
    { sWithSpotify with focusAcquireInProgress := true } FocusState.NONE).1 rfl
  have h2 := (executeOnFocusChanged_guards
    { sWithSpotify with playerInFocus := "spotify" } FocusState.FOREGROUND).2.2
    (some sampleAdapterState) (by decide) (by decide)
  refine ⟨?_, h2.1, h2.2.2⟩
  rw [h1]
  rfl

/-- Claim C7: an acquire-intent setPlayerInFocus never calls acquireChannel
while a prior acquisition is outstanding or while focus is already held; when
the guard passes it acquires exactly once, resets activity to IDLE, clears
Halt Initiator, marks the acquisition in progress — so an immediately
repeated acquire issues no second acquireChannel; releaseChannel is requested
exactly when the releasing identifier equals the current player-in-focus and
focus is not NONE. -/
theorem setPlayerInFocus_acquireGuarded (s : EmpState) (pid : String) :
    ((s.focusAcquireInProgress = true ∨ s.focus ≠ FocusState.NONE) →
      (setPlayerInFocus s pid true).2.count FocusManagerCall.acquireChannel = 0) ∧
    ((s.focus = FocusState.NONE ∧ s.focusAcquireInProgress = false) →
      (setPlayerInFocus s pid true).2.count FocusManagerCall.acquireChannel = 1 ∧
      (setPlayerInFocus s pid true).1.currentActivity = PlayerActivity.IDLE ∧
      (setPlayerInFocus s pid true).1.haltInitiator = HaltInitiator.NONE ∧
      (setPlayerInFocus s pid true).1.focusAcquireInProgress = true ∧
      ∀ q : String,
        (setPlayerInFocus (setPlayerInFocus s pid true).1 q true).2.count
          FocusManagerCall.acquireChannel = 0) ∧
    ((setPlayerInFocus s pid false).2.count FocusManagerCall.releaseChannel =
      if pid = s.playerInFocus ∧ s.focus ≠ FocusState.NONE then 1 else 0) := by
  refine ⟨?_, ?_, ?_⟩
  · intro hguard
    have hno : ¬(s.focus = FocusState.NONE ∧ s.focusAcquireInProgress = false) := by
      rcases hguard with h | h
      · intro hc
        have hc2 := hc.2
        rw [h] at hc2
        exact absurd hc2 (by decide)
      · exact fun hc => h hc.1
    simp [setPlayerInFocus, hno]
  · intro hguard
    have hyes : s.focus = FocusState.NONE ∧ ¬s.focusAcquireInProgress = true := by
      refine ⟨hguard.1, ?_⟩
      rw [hguard.2]
      simp
    refine ⟨?_, ?_, ?_, ?_, ?_⟩ <;>
      simp [setPlayerInFocus, hyes, List.count_cons]
  · by_cases hc : pid = s.playerInFocus ∧ s.focus ≠ FocusState.NONE <;>
      simp [setPlayerInFocus, hc, List.count_cons]

/-- Witness for claim C7 at concrete inputs: from the fresh state the acquire
fires once with the IDLE/NONE reset; repeating it issues no second acquire;
releasing a mismatched identifier issues no release, releasing the matching
one while focus is held does. -/
theorem setPlayerInFocus_acquireGuarded_witness :
    (setPlayerInFocus emptyEmp "spotify" true).2.count FocusManagerCall.acquireChannel = 1 ∧
    (setPlayerInFocus emptyEmp "spotify" true).1.currentActivity = PlayerActivity.IDLE ∧
    (setPlayerInFocus emptyEmp "spotify" true).1.haltInitiator = HaltInitiator.NONE ∧
    (setPlayerInFocus (setPlayerInFocus emptyEmp "spotify" true).1 "spotify" true).2.count
      FocusManagerCall.acquireChannel = 0 ∧
    (setPlayerInFocus sPlayingBackground "spotify" false).2.count
      FocusManagerCall.releaseChannel = 1 ∧
    (setPlayerInFocus sPlayingBackground "pandora" false).2.count
      FocusManagerCall.releaseChannel = 0 := by
  have h1 := (setPlayerInFocus_acquireGuarded emptyEmp "spotify").2.1 (by decide)
  have h2 := (setPlayerInFocus_acquireGuarded sPlayingBackground "spotify").2.2
  have h3 := (setPlayerInFocus_acquireGuarded sPlayingBackground "pandora").2.2
  refine ⟨h1.1, h1.2.1, h1.2.2.1, h1.2.2.2.2 "spotify", ?_, ?_⟩
  · rw [h2]
    decide
  · rw [h3]
    decide

/-- Claim C8: adding the same non-null Adapter Handler a second time is
rejected (logged as a duplicate) with no change to the handler set, whose
size stays 1 after two adds of the same handler to an empty set; removing a
handler that is not in the set logs a warning and leaves the state
unchanged. -/
theorem adapterHandler_addRemove (s : EmpState) (h : Nat) :
    (s.adapterHandlers = [] →
      (addAdapterHandler s (some h)).1.adapterHandlers = [h] ∧
      addAdapterHandler (addAdapterHandler s (some h)).1 (some h) =
        ((addAdapterHandler s (some h)).1, some HandlerLogNote.duplicateHandlerError) ∧
      (addAdapterHandler (addAdapterHandler s (some h)).1 (some h)).1.adapterHandlers.length = 1) ∧
    (h ∉ s.adapterHandlers →
      removeAdapterHandler s (some h) = (s, some HandlerLogNote.nonexistentHandlerWarning)) := by
  constructor
  · intro he
    refine ⟨?_, ?_, ?_⟩ <;> simp [addAdapterHandler, he]
  · intro hn
    simp [removeAdapterHandler, hn]

/-- Witness for claim C8 at concrete inputs: two adds of handler 7 to the
fresh agent, and a removal of the never-added handler 9. -/
theorem adapterHandler_addRemove_witness :
    (addAdapterHandler emptyEmp (some 7)).1.adapterHandlers = [7] ∧
    addAdapterHandler (addAdapterHandler emptyEmp (some 7)).1 (some 7) =
      ((addAdapterHandler emptyEmp (some 7)).1, some HandlerLogNote.duplicateHandlerError) ∧
    (addAdapterHandler (addAdapterHandler emptyEmp (some 7)).1 (some 7)).1.adapterHandlers.length = 1 ∧
    removeAdapterHandler emptyEmp (some 9) =
      (emptyEmp, some HandlerLogNote.nonexistentHandlerWarning) := by
  have h1 := (adapterHandler_addRemove emptyEmp 7).1 rfl
  have h2 := (adapterHandler_addRemove emptyEmp 9).2 (by decide)
  exact ⟨h1.1, h1.2.1, h1.2.2, h2⟩

/-- The registry part of the session snapshot contributes one block per
non-null adapter. -/
theorem registry_sessionBlocks_length (l : List (String × Option AdapterState)) :
    (l.filterMap (fun a => a.2.map (fun ast => ast.sessionState))).length =
      (l.filterMap (fun a => a.2)).length := by
  induction l with
  | nil => rfl
  | cons a l ih =>
    obtain ⟨k, v⟩ := a
    cases v <;> simp [List.filterMap_cons, ih]

/-- The registry part of the playback snapshot contributes one block per
non-null adapter. -/
theorem registry_playbackBlocks_length (l : List (String × Option AdapterState)) :
    (l.filterMap (fun a => a.2.map (fun ast => ast.playbackState))).length =
      (l.filterMap (fun a => a.2)).length := by
  induction l with
  | nil => rfl
  | cons a l ih =>
    obtain ⟨k, v⟩ := a
    cases v <;> simp [List.filterMap_cons, ih]

/-- The broadcast part of the session snapshot keeps exactly the adapter
states with a non-empty session playerId. -/
theorem broadcast_sessionBlocks_length (sts : List AdapterState) :
    (sts.filterMap (fun ast =>
        if ast.sessionState.playerId = "" then none else some ast.sessionState)).length =
      (sts.filter (fun ast => ast.sessionState.playerId != "")).length := by
  induction sts with
  | nil => rfl
  | cons a sts ih =>
    by_cases h : a.sessionState.playerId = "" <;>
      simp [List.filterMap_cons, List.filter_cons, h, ih]

/-- A broadcast adapter state whose playerId is empty in both portions. -/
def emptyIdAdapterState : AdapterState := ⟨⟨"", false, ""⟩, ⟨"", "IDLE", ""⟩⟩

/-- Counterexample for claim C9: with no registry adapters and a single
broadcast-handler adapter state whose playerId is empty, the session snapshot
skips it but the playback snapshot still appends its block — so the non-empty
rule does not apply to the playback snapshot, contrary to the claim. -/
theorem snapshot_nonEmptyRule_counterexample :
    provideSessionStatePlayers emptyEmp [emptyIdAdapterState] = [] ∧
    providePlaybackStatePlayers emptyEmp [emptyIdAdapterState] =
      [emptyIdAdapterState.playbackState] ∧
    emptyIdAdapterState.playbackState.playerId = "" := by
  refine ⟨?_, ?_, rfl⟩ <;>
    simp [provideSessionStatePlayers, providePlaybackStatePlayers,
      emptyEmp, emptyIdAdapterState]

/-- Claim C9 amended: when building the snapshots, broadcast-handler adapter
states are appended to the session snapshot only when their session playerId
is non-empty, while the playback snapshot appends every broadcast-handler
adapter state with no non-empty filter (each snapshot also carries one block
per non-null registry adapter). -/
theorem snapshot_broadcastAppend_amended (s : EmpState) (sts : List AdapterState) :
    (provideSessionStatePlayers s sts).length =
      (s.adapters.filterMap (fun a => a.2)).length +
        (sts.filter (fun ast => ast.sessionState.playerId != "")).length ∧
    (providePlaybackStatePlayers s sts).length =
      (s.adapters.filterMap (fun a => a.2)).length + sts.length ∧
    ∀ ast ∈ sts, ast.playbackState ∈ providePlaybackStatePlayers s sts := by
  refine ⟨?_, ?_, ?_⟩
  · simp [provideSessionStatePlayers, registry_sessionBlocks_length,
      broadcast_sessionBlocks_length]
  · simp [providePlaybackStatePlayers, registry_playbackBlocks_length]
  · intro ast hmem
    exact List.mem_append.2 (Or.inr (List.mem_map_of_mem _ hmem))

/-- Witness for the amended claim C9: one registry adapter plus two broadcast
states, one of which has an empty playerId — the session snapshot has 1+1
blocks, the playback snapshot 1+2, and the non-empty broadcast playback block
is present. -/
theorem snapshot_broadcastAppend_amended_witness :
    (provideSessionStatePlayers sWithSpotify [emptyIdAdapterState, sampleAdapterState]).length = 2 ∧
    (providePlaybackStatePlayers sWithSpotify [emptyIdAdapterState, sampleAdapterState]).length = 3 ∧
    sampleAdapterState.playbackState ∈
      providePlaybackStatePlayers sWithSpotify [emptyIdAdapterState, sampleAdapterState] := by
  have h := snapshot_broadcastAppend_amended sWithSpotify
    [emptyIdAdapterState, sampleAdapterState]
  refine ⟨?_, ?_, h.2.2 sampleAdapterState (by simp)⟩
  · rw [h.1]
    decide
  · rw [h.2.1]
    decide

end AvsEmp
